import Mathlib

/-!
Verification development for the asset-search persistence layer of a
media-management application (kysely/typeorm based).  The TypeScript source
is shallowly embedded: each embedded definition mirrors one function of the
source file `database utils` (OptionalBetween, hasPeopleCte/hasPeople,
withStack, searchAssetBuilder) or the migration `AddAssetFilesTable`.
JavaScript truthiness, which the source relies on for every `$if` guard and
for the `??=` / `||=` defaulting, is modelled explicitly.
-/

/-! ## JavaScript truthiness of optional values

`Option α` models `α | undefined`.  A missing value is falsy; a present
value is truthy according to the JS rules of its runtime type:
strings are falsy when empty, booleans when `false`, numbers when zero,
and objects (`Date`, `Buffer`, arrays) are always truthy. -/

/-- Truthiness of an optional JS string: `undefined` and `""` are falsy. -/
def truthyStr (o : Option String) : Bool :=
  match o with
  | some s => s != ""
  | none => false

/-- Truthiness of an optional JS boolean: only `true` is truthy. -/
def truthyB (o : Option Bool) : Bool :=
  match o with
  | some b => b
  | none => false

/-! ## OptionalBetween (predicate helper)

Source:
```
export function OptionalBetween<T>(from?: T, to?: T) {
  if (from && to) { return Between(from, to); }
  else if (from) { return MoreThanOrEqual(from); }
  else if (to) { return LessThanOrEqual(to); }
}
```
The helper is generic; we instantiate `T` at JS numbers (Lean `Int`),
where the truthiness tests `from`/`to` are false exactly at `0`.
The returned typeorm find-operators are modelled by `FindOperator`;
an absent return value (`undefined`) means "no constraint". -/

/-- Truthiness of an optional JS number: `undefined`, `0` are falsy. -/
def truthyNum (o : Option Int) : Bool :=
  match o with
  | some n => n != 0
  | none => false

/-- The typeorm find operators produced by `OptionalBetween`. -/
inductive FindOperator where
  | between (lo hi : Int)
  | moreThanOrEqual (lo : Int)
  | lessThanOrEqual (hi : Int)
deriving DecidableEq, Repr

/-- Embedding of `OptionalBetween` at `T = number`. The source tests the
raw arguments with JS truthiness (`if (from && to) ... else if (from) ...`),
so a present but falsy bound (the number `0`) falls through. -/
def OptionalBetween (fromV toV : Option Int) : Option FindOperator :=
  if truthyNum fromV && truthyNum toV then
    some (.between (fromV.getD 0) (toV.getD 0))
  else if truthyNum fromV then
    some (.moreThanOrEqual (fromV.getD 0))
  else if truthyNum toV then
    some (.lessThanOrEqual (toV.getD 0))
  else
    none

/-- The set of values matched by the (optional) find operator: the
semantics typeorm gives the operators `Between`, `MoreThanOrEqual`,
`LessThanOrEqual`; an absent operator constrains nothing. -/
def matchesOperator (op : Option FindOperator) (v : Int) : Bool :=
  match op with
  | none => true
  | some (.between lo hi) => decide (lo ≤ v) && decide (v ≤ hi)
  | some (.moreThanOrEqual lo) => decide (lo ≤ v)
  | some (.lessThanOrEqual hi) => decide (v ≤ hi)

/-! ## Database rows

Timestamps are modelled as `Int`, SQL `NULL`-able columns as `Option`.
Only the columns the embedded queries touch are carried. -/

/-- A row of the `assets` table (the columns read by the queries). -/
structure AssetRow where
  id : String
  ownerId : String
  libraryId : Option String
  stackId : Option String
  createdAt : Int
  updatedAt : Int
  deletedAt : Option Int
  fileCreatedAt : Int
  checksum : String
  deviceAssetId : String
  deviceId : String
  encodedVideoPath : Option String
  originalPath : String
  previewPath : Option String
  thumbnailPath : Option String
  originalFileName : String
  isFavorite : Bool
  isOffline : Bool
  isVisible : Bool
  isArchived : Bool
  assetType : String
  livePhotoVideoId : Option String
deriving DecidableEq, Repr

/-- A row of the `exif` table. -/
structure ExifRow where
  assetId : String
  city : Option String
  country : Option String
  lensModel : Option String
  make : Option String
  model : Option String
  state : Option String
deriving DecidableEq, Repr

/-- A row of the `asset_faces` table. -/
structure AssetFaceRow where
  id : String
  assetId : String
  personId : Option String
deriving DecidableEq, Repr

/-- A row of the `albums_assets_assets` join table. -/
structure AlbumAssetRow where
  albumsId : String
  assetsId : String
deriving DecidableEq, Repr

/-- A row of the `asset_stack` table. -/
structure AssetStackRow where
  id : String
  primaryAssetId : String
deriving DecidableEq, Repr

/-- The database contents the embedded queries run against. -/
structure DBData where
  assets : List AssetRow
  exif : List ExifRow
  assetFaces : List AssetFaceRow
  albumAssets : List AlbumAssetRow
  assetStacks : List AssetStackRow
deriving DecidableEq, Repr

/-! ## People-membership filter

Source (`hasPeopleCte`): select from `asset_faces`, keep rows with
`personId = any(personIds)`, group by `assetId`, and keep groups with
`count(personId) >= personIds.length`.  Note the source counts matching
face *rows* (`count("personId")`, no `distinct`), not distinct persons.
`hasPeople` inner-joins that CTE against `assets` when a non-empty id
list is supplied, and is the identity base selection otherwise. -/

/-- Number of `asset_faces` rows of the given asset whose `personId`
matches one of the requested ids (`personId = any(personIds)`; a SQL
`NULL` `personId` matches nothing).  This is the `count("personId")`
of the group for `assetId` in `hasPeopleCte` — the source applies no
`distinct`, so several faces of the same person are counted separately. -/
def matchingPersonRowCount (faces : List AssetFaceRow) (personIds : List String)
    (assetId : String) : Nat :=
  (faces.filter (fun f =>
    f.assetId == assetId &&
      (match f.personId with
       | some p => personIds.contains p
       | none => false))).length

/-- Membership of an asset in the `valid` CTE of `hasPeopleCte`:
the `HAVING count("personId") >= personIds.length` test. -/
def assetPassesPeople (faces : List AssetFaceRow) (personIds : List String)
    (assetId : String) : Bool :=
  decide (personIds.length ≤ matchingPersonRowCount faces personIds assetId)

/-! ## The composed search query

The kysely query built by `searchAssetBuilder` is represented by the
joins it accumulates, the `WHERE` conditions in order, the base selection
(plain `assets`, or `assets` inner-joined with the people CTE), and the
extra projections.  The `DeduplicateJoinsPlugin` the builder installs is
modelled by `compiledJoins` (join deduplication at compile time). -/

/-- A join clause added by the builder or an attacher. -/
inductive Join where
  | leftExif
  | leftAssetStack
  | innerSmartSearch
  | leftSmartSearch
deriving DecidableEq, Repr

/-- One `WHERE` condition of the composed query, in source order of the
builder that can emit it. -/
inductive Cond where
  | createdAtLe (t : Int)
  | createdAtGe (t : Int)
  | updatedAtLe (t : Int)
  | updatedAtGe (t : Int)
  | trashedLe (t : Int)
  | trashedGe (t : Int)
  | takenLe (t : Int)
  | takenGe (t : Int)
  | exifCityEq (s : String)
  | exifCountryEq (s : String)
  | exifLensModelEq (s : String)
  | exifMakeEq (s : String)
  | exifModelEq (s : String)
  | exifStateEq (s : String)
  | checksumEq (s : String)
  | deviceAssetIdEq (s : String)
  | deviceIdEq (s : String)
  | idEq (s : String)
  | libraryIdEq (s : String)
  | ownerIdAnyOf (ids : List String)
  | encodedVideoPathEq (s : String)
  | originalPathEq (s : String)
  | previewPathEq (s : String)
  | thumbnailPathEq (s : String)
  | originalFileNameIlike (s : String)
  | isFavoriteEq (b : Bool)
  | isOfflineEq (b : Bool)
  | isVisibleEq (b : Bool)
  | typeEq (s : String)
  | isArchivedEq (b : Bool)
  | encodedVideoPathNotNull
  | livePhotoVideoIdNotNull
  | notExistsAlbumAssetIdEqLit (s : String)
  | deletedAtIsNull
deriving DecidableEq, Repr

/-- The composed selection over `assets`. -/
structure AssetQuery where
  /-- `some pids` when the base selection is `assets` inner-joined with
  the `valid` people CTE for `pids`; `none` for plain `assets`. -/
  peopleFilter : Option (List String)
  joins : List Join
  wheres : List Cond
  selectExif : Bool
  selectFaces : Bool
deriving DecidableEq, Repr

/-- The base selection `db.selectFrom("assets")`. -/
def baseAssetQuery : AssetQuery :=
  { peopleFilter := none, joins := [], wheres := [], selectExif := false, selectFaces := false }

/-- `qb.where(...)`: append one condition. -/
def AssetQuery.whereC (q : AssetQuery) (c : Cond) : AssetQuery :=
  { q with wheres := q.wheres ++ [c] }

/-- `qb.leftJoin("exif", "assets.id", "exif.assetId")`. -/
def AssetQuery.leftJoinExif (q : AssetQuery) : AssetQuery :=
  { q with joins := q.joins ++ [Join.leftExif] }

/-- `qb.$if(cond, f)`: apply `f` only when `cond` holds. -/
def AssetQuery.qif (q : AssetQuery) (b : Bool) (f : AssetQuery → AssetQuery) : AssetQuery :=
  if b then f q else q

/-- `withExif`: left join `exif` and project the stripped JSON object. -/
def withExif (q : AssetQuery) : AssetQuery :=
  { q.leftJoinExif with selectExif := true }

/-- `hasPeople(db, personIds)`: wrap the base table in the membership CTE
when `personIds && personIds.length > 0` (a present array is truthy in JS,
so only the length test matters), else select from plain `assets`. -/
def hasPeople (personIds : Option (List String)) : AssetQuery :=
  match personIds with
  | some pids =>
    if 0 < pids.length then { baseAssetQuery with peopleFilter := some pids }
    else baseAssetQuery
  | none => baseAssetQuery

/-! ## Search options

`AssetSearchBuilderOptions`: every field optional.  Dates are JS `Date`
objects (`Option Int`; any present date is truthy), `checksum` a Buffer
(any present buffer is truthy), `userIds`/`personIds` arrays (any present
array is truthy, even the empty one). -/

/-- The options bag accepted by `searchAssetBuilder`. -/
structure SearchOptions where
  createdBefore : Option Int := none
  createdAfter : Option Int := none
  updatedBefore : Option Int := none
  updatedAfter : Option Int := none
  trashedBefore : Option Int := none
  trashedAfter : Option Int := none
  takenBefore : Option Int := none
  takenAfter : Option Int := none
  city : Option String := none
  country : Option String := none
  lensModel : Option String := none
  make : Option String := none
  model : Option String := none
  state : Option String := none
  checksum : Option String := none
  deviceAssetId : Option String := none
  deviceId : Option String := none
  id : Option String := none
  libraryId : Option String := none
  userIds : Option (List String) := none
  personIds : Option (List String) := none
  encodedVideoPath : Option String := none
  originalPath : Option String := none
  previewPath : Option String := none
  thumbnailPath : Option String := none
  originalFileName : Option String := none
  isFavorite : Option Bool := none
  isOffline : Option Bool := none
  isVisible : Option Bool := none
  assetType : Option String := none
  isArchived : Option Bool := none
  isEncoded : Option Bool := none
  isMotion : Option Bool := none
  isNotInAlbum : Option Bool := none
  withArchived : Option Bool := none
  withDeleted : Option Bool := none
  withExifFlag : Option Bool := none
  withFaces : Option Bool := none
  withPeople : Option Bool := none
deriving DecidableEq, Repr

/-- The options bag with every filter unset. -/
def emptyOptions : SearchOptions := {}

/-- `options.isArchived ??= options.withArchived ? undefined : false;`
(the `??=` assigns only when the field is nullish). -/
def archivedDefault (opts : SearchOptions) : Option Bool :=
  match opts.isArchived with
  | some b => some b
  | none => if truthyB opts.withArchived then none else some false

/-- `options.withDeleted ||= !!(options.trashedAfter || options.trashedBefore);`
(the `||=` assigns whenever the current value is falsy; a present `Date`
is always truthy). -/
def deletedDefault (opts : SearchOptions) : Option Bool :=
  if truthyB opts.withDeleted then opts.withDeleted
  else some (opts.trashedAfter.isSome || opts.trashedBefore.isSome)

/-- Embedding of `searchAssetBuilder`.  The source first mutates the
supplied options in place (the two defaulting assignments), then chains
`$if` guards in the order of the source; the returned pair is the options
object as left after the call together with the composed query.  Each
`$if` guard is the JS truthiness of the tested field. -/
def searchAssetBuilder (opts : SearchOptions) : SearchOptions × AssetQuery :=
  let opts1 : SearchOptions := { opts with isArchived := archivedDefault opts }
  let opts2 : SearchOptions := { opts1 with withDeleted := deletedDefault opts1 }
  let q := (hasPeople opts2.personIds)
    |>.qif opts2.createdBefore.isSome (fun qb => qb.whereC (.createdAtLe (opts2.createdBefore.getD 0)))
    |>.qif opts2.createdAfter.isSome (fun qb => qb.whereC (.createdAtGe (opts2.createdAfter.getD 0)))
    |>.qif opts2.updatedBefore.isSome (fun qb => qb.whereC (.updatedAtLe (opts2.updatedBefore.getD 0)))
    |>.qif opts2.updatedAfter.isSome (fun qb => qb.whereC (.updatedAtGe (opts2.updatedAfter.getD 0)))
    |>.qif opts2.trashedBefore.isSome (fun qb => qb.whereC (.trashedLe (opts2.trashedBefore.getD 0)))
    |>.qif opts2.trashedAfter.isSome (fun qb => qb.whereC (.trashedGe (opts2.trashedAfter.getD 0)))
    |>.qif opts2.takenBefore.isSome (fun qb => qb.whereC (.takenLe (opts2.takenBefore.getD 0)))
    |>.qif opts2.takenAfter.isSome (fun qb => qb.whereC (.takenGe (opts2.takenAfter.getD 0)))
    |>.qif (truthyStr opts2.city) (fun qb => qb.leftJoinExif.whereC (.exifCityEq (opts2.city.getD "")))
    |>.qif (truthyStr opts2.country) (fun qb => qb.leftJoinExif.whereC (.exifCountryEq (opts2.country.getD "")))
    |>.qif (truthyStr opts2.lensModel) (fun qb => qb.leftJoinExif.whereC (.exifLensModelEq (opts2.lensModel.getD "")))
    |>.qif (truthyStr opts2.make) (fun qb => qb.leftJoinExif.whereC (.exifMakeEq (opts2.make.getD "")))
    |>.qif (truthyStr opts2.model) (fun qb => qb.leftJoinExif.whereC (.exifModelEq (opts2.model.getD "")))
    |>.qif (truthyStr opts2.state) (fun qb => qb.leftJoinExif.whereC (.exifStateEq (opts2.state.getD "")))
    |>.qif opts2.checksum.isSome (fun qb => qb.whereC (.checksumEq (opts2.checksum.getD "")))
    |>.qif (truthyStr opts2.deviceAssetId) (fun qb => qb.whereC (.deviceAssetIdEq (opts2.deviceAssetId.getD "")))
    |>.qif (truthyStr opts2.deviceId) (fun qb => qb.whereC (.deviceIdEq (opts2.deviceId.getD "")))
    |>.qif (truthyStr opts2.id) (fun qb => qb.whereC (.idEq (opts2.id.getD "")))
    |>.qif (truthyStr opts2.libraryId) (fun qb => qb.whereC (.libraryIdEq (opts2.libraryId.getD "")))
    |>.qif opts2.userIds.isSome (fun qb => qb.whereC (.ownerIdAnyOf (opts2.userIds.getD [])))
    |>.qif (truthyStr opts2.encodedVideoPath) (fun qb => qb.whereC (.encodedVideoPathEq (opts2.encodedVideoPath.getD "")))
    |>.qif (truthyStr opts2.originalPath) (fun qb => qb.whereC (.originalPathEq (opts2.originalPath.getD "")))
    |>.qif (truthyStr opts2.previewPath) (fun qb => qb.whereC (.previewPathEq (opts2.previewPath.getD "")))
    |>.qif (truthyStr opts2.thumbnailPath) (fun qb => qb.whereC (.thumbnailPathEq (opts2.thumbnailPath.getD "")))
    |>.qif (truthyStr opts2.originalFileName) (fun qb => qb.whereC (.originalFileNameIlike (opts2.originalFileName.getD "")))
    |>.qif (truthyB opts2.isFavorite) (fun qb => qb.whereC (.isFavoriteEq (opts2.isFavorite.getD false)))
    |>.qif (truthyB opts2.isOffline) (fun qb => qb.whereC (.isOfflineEq (opts2.isOffline.getD false)))
    |>.qif (truthyB opts2.isVisible) (fun qb => qb.whereC (.isVisibleEq (opts2.isVisible.getD false)))
    |>.qif (truthyStr opts2.assetType) (fun qb => qb.whereC (.typeEq (opts2.assetType.getD "")))
    |>.qif (truthyB opts2.isArchived) (fun qb => qb.whereC (.isArchivedEq (opts2.isArchived.getD false)))
    |>.qif (truthyB opts2.isEncoded) (fun qb => qb.whereC .encodedVideoPathNotNull)
    |>.qif (truthyB opts2.isMotion) (fun qb => qb.whereC .livePhotoVideoIdNotNull)
    |>.qif (truthyB opts2.isNotInAlbum) (fun qb => qb.whereC (.notExistsAlbumAssetIdEqLit "assets.id"))
    |>.qif (truthyB opts2.withExifFlag) (fun qb => withExif qb)
    |>.qif (truthyB opts2.withFaces || truthyB opts2.withPeople || opts2.personIds.isSome)
      (fun qb => { qb with selectFaces := true })
    |>.qif (!truthyB opts2.withDeleted) (fun qb => qb.whereC .deletedAtIsNull)
  (opts2, q)

/-- The `DeduplicateJoinsPlugin` installed through
`kysely.withPlugin(joinDeduplicationPlugin)`: identical join clauses are
collapsed into one when the query is compiled. -/
def compiledJoins (q : AssetQuery) : List Join :=
  q.joins.dedup

/-! ## Query evaluation

Semantics of the composed (join-deduplicated) query over a `DBData`.
Conditions over `exif` columns hold when the (unique, deduplicated)
left-joined `exif` row exists and satisfies the comparison; a SQL
comparison with `NULL` is not satisfied. -/

/-- Evaluation of one `WHERE` condition at an asset row. -/
def evalCond (db : DBData) (a : AssetRow) : Cond → Bool
  | .createdAtLe t => decide (a.createdAt ≤ t)
  | .createdAtGe t => decide (t ≤ a.createdAt)
  | .updatedAtLe t => decide (a.updatedAt ≤ t)
  | .updatedAtGe t => decide (t ≤ a.updatedAt)
  | .trashedLe t =>
    match a.deletedAt with
    | some d => decide (d ≤ t)
    | none => false
  | .trashedGe t =>
    match a.deletedAt with
    | some d => decide (t ≤ d)
    | none => false
  | .takenLe t => decide (a.fileCreatedAt ≤ t)
  | .takenGe t => decide (t ≤ a.fileCreatedAt)
  | .exifCityEq s => db.exif.any (fun e => e.assetId == a.id && e.city == some s)
  | .exifCountryEq s => db.exif.any (fun e => e.assetId == a.id && e.country == some s)
  | .exifLensModelEq s => db.exif.any (fun e => e.assetId == a.id && e.lensModel == some s)
  | .exifMakeEq s => db.exif.any (fun e => e.assetId == a.id && e.make == some s)
  | .exifModelEq s => db.exif.any (fun e => e.assetId == a.id && e.model == some s)
  | .exifStateEq s => db.exif.any (fun e => e.assetId == a.id && e.state == some s)
  | .checksumEq s => a.checksum == s
  | .deviceAssetIdEq s => a.deviceAssetId == s
  | .deviceIdEq s => a.deviceId == s
  | .idEq s => a.id == s
  | .libraryIdEq s => a.libraryId == some s
  | .ownerIdAnyOf ids => ids.contains a.ownerId
  | .encodedVideoPathEq s => a.encodedVideoPath == some s
  | .originalPathEq s => a.originalPath == s
  | .previewPathEq s => a.previewPath == some s
  | .thumbnailPathEq s => a.thumbnailPath == some s
  -- `f_unaccent(...) ilike f_unaccent(...)`: accent/case folding and LIKE
  -- wildcards are not modelled (no claim depends on this condition).
  | .originalFileNameIlike s => a.originalFileName == s
  | .isFavoriteEq b => a.isFavorite == b
  | .isOfflineEq b => a.isOffline == b
  | .isVisibleEq b => a.isVisible == b
  | .typeEq s => a.assetType == s
  | .isArchivedEq b => a.isArchived == b
  | .encodedVideoPathNotNull => a.encodedVideoPath.isSome
  | .livePhotoVideoIdNotNull => a.livePhotoVideoId.isSome
  -- the source writes `.where("assetsId", "=", "assets.id")`: the third
  -- argument of kysely `where` is a VALUE, so the subquery compares the
  -- `assetsId` column with the constant string `"assets.id"` instead of
  -- referencing the outer column (`whereRef` would be needed for that).
  | .notExistsAlbumAssetIdEqLit s => !(db.albumAssets.any (fun r => r.assetsId == s))
  | .deletedAtIsNull => a.deletedAt.isNone

/-- The base row set of the query: all assets, or (with the people CTE)
the assets inner-joined with `valid` on `valid.assetId = assets.id`. -/
def baseRows (db : DBData) (q : AssetQuery) : List AssetRow :=
  match q.peopleFilter with
  | some pids => db.assets.filter (fun a => assetPassesPeople db.assetFaces pids a.id)
  | none => db.assets

/-- The rows returned by the composed query: the base rows satisfying
every accumulated `WHERE` condition. -/
def evalQuery (db : DBData) (q : AssetQuery) : List AssetRow :=
  (baseRows db q).filter (fun a => q.wheres.all (evalCond db a))

/-! ## withStack

Source:
```
qb.leftJoin("asset_stack", "asset_stack.primaryAssetId", "assets.id")
  .select(... toJson("asset_stack") ...)
  .where(eb.or([eb("asset_stack.primaryAssetId","=",eb.ref("assets.id")),
                eb("assets.stackId","is",null)]))
  .$if(assets, (qb) => qb.select((eb) => eb
     .selectFrom("assets as stacked")
     .select(sql`json_agg(jsonb_strip_nulls(to_jsonb(stacked)))`.as("stackedAssets"))
     .whereRef("asset_stack.id", "=", "assets.stackId")
     .whereRef("asset_stack.primaryAssetId", "!=", "assets.id")
     .$if(!withDeleted, (qb) => qb.where("stacked.deletedAt", "is", null))
     .as("stackedAssets")))
```
Inside the subquery the alias `stacked` names the freshly scanned `assets`
table, while the bare names `assets` and `asset_stack` resolve to the
OUTER query tables — so both `whereRef` conditions of the subquery are
correlated conditions on the outer row only and do not constrain
`stacked` at all.  `json_agg` over an empty row set yields SQL `NULL`
(modelled as `none`). -/

/-- The `asset_stack` row matched by the
`leftJoin("asset_stack", "asset_stack.primaryAssetId", "assets.id")`
for a given outer asset (`none` when the left join finds no match). -/
def stackJoinRow (db : DBData) (a : AssetRow) : Option AssetStackRow :=
  db.assetStacks.find? (fun s => s.primaryAssetId == a.id)

/-- The outer `WHERE` of `withStack`:
`asset_stack.primaryAssetId = assets.id OR assets.stackId IS NULL`
(a comparison against the `NULL` row of a missed left join is not
satisfied). -/
def withStackOuterWhere (st : Option AssetStackRow) (a : AssetRow) : Bool :=
  (match st with
   | some s => s.primaryAssetId == a.id
   | none => false) || a.stackId.isNone

/-- The `stackedAssets` scalar subquery of `withStack` for one outer row:
aggregate the rows of `assets as stacked` passing the three conditions.
The first two conditions reference only the outer `assets` row and the
joined `asset_stack` row (see the module comment), the third restricts
`stacked.deletedAt` when deleted rows were not requested.  An empty
aggregation is SQL `NULL` (`none`). -/
def stackedAssetsSubquery (db : DBData) (st : Option AssetStackRow) (a : AssetRow)
    (withDeleted : Option Bool) : Option (List AssetRow) :=
  let rows := db.assets.filter (fun stacked =>
    (match st, a.stackId with
     | some s, some sid => s.id == sid
     | _, _ => false) &&
    (match st with
     | some s => s.primaryAssetId != a.id
     | none => false) &&
    (truthyB withDeleted || stacked.deletedAt.isNone))
  if rows.isEmpty then none else some rows

/-- The `stackedAssets` value `withStack` (with `assets: true`) produces
for a given outer asset row. -/
def withStackStackedAssets (db : DBData) (a : AssetRow) (withDeleted : Option Bool) :
    Option (List AssetRow) :=
  stackedAssetsSubquery db (stackJoinRow db a) a withDeleted

/-! ## The AddAssetFilesTable migration

`up`: create `asset_files` (unique on `(assetId, type)`), insert one
`"preview"` row per asset whose `previewPath` is neither `NULL` nor `""`,
drop the `previewPath` column; likewise for `"thumbnail"`.
`down`: re-add `previewPath` (no default, hence `NULL`), re-add
`thumbnailPath` with `DEFAULT ""`, and `UPDATE ... FROM asset_files`
each column from the row of the matching type, then drop the table. -/

/-- An `assets` row as seen by the migration (the two legacy columns). -/
structure MigAsset where
  id : String
  previewPath : Option String
  thumbnailPath : Option String
deriving DecidableEq, Repr

/-- A row of the new `asset_files` table. -/
structure AssetFileRow where
  assetId : String
  fileType : String
  path : String
deriving DecidableEq, Repr

/-- The rows inserted by `up`:
`INSERT ... SELECT "id", "preview", "previewPath" FROM "assets"
WHERE "previewPath" IS NOT NULL AND "previewPath" != ""` and the same
for `"thumbnail"`.  The unique index on `(assetId, type)` holds for the
result whenever asset ids are distinct. -/
def upInsertRows (assets : List MigAsset) : List AssetFileRow :=
  (assets.filterMap (fun a =>
    match a.previewPath with
    | some p => if p != "" then some ⟨a.id, "preview", p⟩ else none
    | none => none)) ++
  (assets.filterMap (fun a =>
    match a.thumbnailPath with
    | some p => if p != "" then some ⟨a.id, "thumbnail", p⟩ else none
    | none => none))

/-- State after `up`: the `assets` table with both path columns dropped
(only ids remain) and the populated `asset_files` table. -/
def migrationUp (assets : List MigAsset) : List String × List AssetFileRow :=
  (assets.map (fun a => a.id), upInsertRows assets)

/-- `down`: re-add `previewPath` (`NULL` where no `"preview"` file row
matches the asset, by the unique `(assetId, type)` index at most one
does) and `thumbnailPath` (`DEFAULT ""` where no `"thumbnail"` row
matches), each updated from the matching file row path. -/
def migrationDown (ids : List String) (files : List AssetFileRow) : List MigAsset :=
  ids.map (fun i =>
    { id := i
      previewPath :=
        (files.find? (fun f => f.assetId == i && f.fileType == "preview")).map
          (fun f => f.path)
      thumbnailPath :=
        some (((files.find? (fun f => f.assetId == i && f.fileType == "thumbnail")).map
          (fun f => f.path)).getD "") })

/-- Running the migration `up` and then `down` on an `assets` table. -/
def upThenDown (assets : List MigAsset) : List MigAsset :=
  migrationDown (migrationUp assets).1 (migrationUp assets).2

/-! ## Helper lemmas: the shape of the built query

Each `$if` step of the builder either appends conditions/joins or sets a
projection flag, so the accumulated `wheres` and `joins` lists are
concatenations of conditional singletons `litem`. -/

/-- A conditional singleton: the contribution of one `$if` step. -/
def litem (b : Bool) (x : α) : List α := if b then [x] else []

@[simp] theorem mem_litem {x y : α} {b : Bool} : y ∈ litem b x ↔ b = true ∧ y = x := by
  unfold litem
  cases b <;> simp

@[simp] theorem wheres_qif_whereC (q : AssetQuery) (b : Bool) (c : Cond) :
    (q.qif b (fun qb => qb.whereC c)).wheres = q.wheres ++ litem b c := by
  unfold AssetQuery.qif AssetQuery.whereC litem
  cases b <;> simp

@[simp] theorem joins_qif_whereC (q : AssetQuery) (b : Bool) (c : Cond) :
    (q.qif b (fun qb => qb.whereC c)).joins = q.joins := by
  unfold AssetQuery.qif AssetQuery.whereC
  cases b <;> simp

@[simp] theorem wheres_qif_joinWhereC (q : AssetQuery) (b : Bool) (c : Cond) :
    (q.qif b (fun qb => qb.leftJoinExif.whereC c)).wheres = q.wheres ++ litem b c := by
  unfold AssetQuery.qif AssetQuery.whereC AssetQuery.leftJoinExif litem
  cases b <;> simp

@[simp] theorem joins_qif_joinWhereC (q : AssetQuery) (b : Bool) (c : Cond) :
    (q.qif b (fun qb => qb.leftJoinExif.whereC c)).joins =
      q.joins ++ litem b Join.leftExif := by
  unfold AssetQuery.qif AssetQuery.whereC AssetQuery.leftJoinExif litem
  cases b <;> simp

@[simp] theorem wheres_qif_withExif (q : AssetQuery) (b : Bool) :
    (q.qif b (fun qb => withExif qb)).wheres = q.wheres := by
  unfold AssetQuery.qif withExif AssetQuery.leftJoinExif
  cases b <;> simp

@[simp] theorem joins_qif_withExif (q : AssetQuery) (b : Bool) :
    (q.qif b (fun qb => withExif qb)).joins = q.joins ++ litem b Join.leftExif := by
  unfold AssetQuery.qif withExif AssetQuery.leftJoinExif litem
  cases b <;> simp

@[simp] theorem wheres_qif_selectFaces (q : AssetQuery) (b : Bool) :
    (q.qif b (fun qb => { qb with selectFaces := true })).wheres = q.wheres := by
  unfold AssetQuery.qif
  cases b <;> simp

@[simp] theorem joins_qif_selectFaces (q : AssetQuery) (b : Bool) :
    (q.qif b (fun qb => { qb with selectFaces := true })).joins = q.joins := by
  unfold AssetQuery.qif
  cases b <;> simp

@[simp] theorem wheres_hasPeople (p : Option (List String)) : (hasPeople p).wheres = [] := by
  unfold hasPeople baseAssetQuery
  cases p with
  | none => rfl
  | some pids => dsimp only; split <;> rfl

@[simp] theorem joins_hasPeople (p : Option (List String)) : (hasPeople p).joins = [] := by
  unfold hasPeople baseAssetQuery
  cases p with
  | none => rfl
  | some pids => dsimp only; split <;> rfl

/-- The guard of the final `$if` of the builder, in terms of the original
options: the `deletedAt IS NULL` condition is emitted exactly when no
trash-date bound is present and `withDeleted` was not requested. -/
theorem not_truthy_deletedDefault (opts : SearchOptions) :
    ((!truthyB (deletedDefault opts)) = true) ↔
      (opts.trashedAfter = none ∧ opts.trashedBefore = none ∧
        truthyB opts.withDeleted = false) := by
  unfold deletedDefault truthyB
  cases hw : opts.withDeleted with
  | none =>
    cases hta : opts.trashedAfter <;> cases htb : opts.trashedBefore <;> simp
  | some b =>
    cases b <;> cases hta : opts.trashedAfter <;> cases htb : opts.trashedBefore <;> simp

/-- Claim C5: `searchAssetBuilder` adds the `deletedAt IS NULL` condition
iff neither `trashedAfter` nor `trashedBefore` is set and `withDeleted`
is not requested; supplying either trash-date bound implicitly includes
soft-deleted rows (the condition is then absent). -/
theorem c5_soft_delete_default_iff (opts : SearchOptions) :
    Cond.deletedAtIsNull ∈ ((searchAssetBuilder opts).2).wheres ↔
      (opts.trashedAfter = none ∧ opts.trashedBefore = none ∧
        truthyB opts.withDeleted = false) := by
  rw [← not_truthy_deletedDefault opts]
  simp [searchAssetBuilder]
  rfl

/-- Claim C9 counterexample: the builder is not pure in its input — on the
all-unset options bag both the `isArchived` and the `withDeleted` fields
of the supplied options differ after the call from their values before it
(`undefined` becomes `false`). -/
theorem c9_counterexample :
    (searchAssetBuilder emptyOptions).1.isArchived = some false ∧
    emptyOptions.isArchived = none ∧
    (searchAssetBuilder emptyOptions).1.withDeleted = some false ∧
    emptyOptions.withDeleted = none :=
  ⟨rfl, rfl, rfl, rfl⟩

/-- Claim C9 (amended): `searchAssetBuilder` mutates the supplied options
object, but only its `isArchived` and `withDeleted` fields (writing the
archived-state and soft-delete defaults); every other field keeps the
value it had before the call, and the builder performs no other effect. -/
theorem c9_mutates_only_the_two_defaults (opts : SearchOptions) :
    (searchAssetBuilder opts).1 =
      { opts with
        isArchived := archivedDefault opts
        withDeleted := deletedDefault opts } := rfl

/-- Claim C7: a boolean filter explicitly set to `false` and a string
filter set to `""` are both falsy, so the builder skips them and composes
the same query as when the filter is absent. -/
theorem c7_falsy_filter_equals_absent (opts : SearchOptions) :
    (searchAssetBuilder { opts with isFavorite := some false }).2 =
      (searchAssetBuilder { opts with isFavorite := none }).2 ∧
    (searchAssetBuilder { opts with isOffline := some false }).2 =
      (searchAssetBuilder { opts with isOffline := none }).2 ∧
    (searchAssetBuilder { opts with isVisible := some false }).2 =
      (searchAssetBuilder { opts with isVisible := none }).2 ∧
    (searchAssetBuilder { opts with city := some "" }).2 =
      (searchAssetBuilder { opts with city := none }).2 :=
  ⟨rfl, rfl, rfl, rfl⟩

/-- Claim C3 counterexample: with the lower bound `0` (a present but
falsy value) and upper bound `5`, `OptionalBetween` returns the
upper-bound-only operator, which matches `-1` even though `-1` is not in
the closed interval `[0, 5]` — so `OptionalRange(a, b)` does not match
exactly `[a, b]` for every pair of bounds. -/
theorem c3_counterexample :
    OptionalBetween (some 0) (some 5) = some (.lessThanOrEqual 5) ∧
    matchesOperator (OptionalBetween (some 0) (some 5)) (-1) = true ∧
    ¬((0 : Int) ≤ -1) := by
  refine ⟨rfl, rfl, by decide⟩

/-- Claim C3 (amended): for truthy bounds — at the number instantiation,
nonzero bounds — `OptionalBetween` behaves as specified: no bounds yields
the unconstrained predicate (and no error), a lower bound alone matches
exactly the values `≥ a`, an upper bound alone exactly the values `≤ b`,
and both bounds exactly the closed interval `[a, b]`; a falsy bound
(the number `0`) is treated as absent. -/
theorem c3_truthy_bounds (a b v : Int) (ha : a ≠ 0) (hb : b ≠ 0) :
    OptionalBetween none none = none ∧
    matchesOperator (OptionalBetween none none) v = true ∧
    (matchesOperator (OptionalBetween (some a) none) v = true ↔ a ≤ v) ∧
    (matchesOperator (OptionalBetween none (some b)) v = true ↔ v ≤ b) ∧
    (matchesOperator (OptionalBetween (some a) (some b)) v = true ↔ a ≤ v ∧ v ≤ b) := by
  have ha' : (a != 0) = true := by simpa using ha
  have hb' : (b != 0) = true := by simpa using hb
  refine ⟨rfl, rfl, ?_, ?_, ?_⟩ <;>
    simp [OptionalBetween, matchesOperator, truthyNum, ha', hb']

/-- Witness for the amended claim C3 at the bounds `1` and `5` and the
value `3`. -/
theorem c3_truthy_bounds_witness :
    matchesOperator (OptionalBetween (some 1) (some 5)) 3 = true :=
  ((c3_truthy_bounds 1 5 3 (by decide) (by decide)).2.2.2.2).mpr (by decide)

/-! ## Concrete data for the evaluation theorems -/

/-- A neutral asset row (all flags off, nothing deleted). -/
def asset0 : AssetRow :=
  { id := "", ownerId := "u1", libraryId := none, stackId := none,
    createdAt := 0, updatedAt := 0, deletedAt := none, fileCreatedAt := 0,
    checksum := "", deviceAssetId := "", deviceId := "",
    encodedVideoPath := none, originalPath := "", previewPath := none,
    thumbnailPath := none, originalFileName := "", isFavorite := false,
    isOffline := false, isVisible := true, isArchived := false,
    assetType := "IMAGE", livePhotoVideoId := none }

/-- An archived, not deleted asset. -/
def archivedAsset : AssetRow := { asset0 with id := "a1", isArchived := true }

/-- A database holding only the archived asset. -/
def dbArchived : DBData :=
  { assets := [archivedAsset], exif := [], assetFaces := [],
    albumAssets := [], assetStacks := [] }

/-- Claim C1 (code bug): with no filters set, the built query carries no
`isArchived` condition at all — the default written by
`options.isArchived ??= false` is discarded by the truthiness guard
`$if(!!options.isArchived, ...)` — and evaluating the query returns the
archived asset instead of excluding it. -/
theorem c1_archived_asset_returned :
    evalQuery dbArchived (searchAssetBuilder emptyOptions).2 = [archivedAsset] ∧
    archivedAsset.isArchived = true ∧
    (∀ b : Bool, Cond.isArchivedEq b ∉ ((searchAssetBuilder emptyOptions).2).wheres) := by
  decide

/-- Two face rows of the same asset, both linked to person `P1`. -/
def facesC2 : List AssetFaceRow :=
  [{ id := "f1", assetId := "A", personId := some "P1" },
   { id := "f2", assetId := "A", personId := some "P1" }]

/-- The asset carrying the two duplicate faces. -/
def assetWithFaces : AssetRow := { asset0 with id := "A" }

/-- A database with one asset, two face rows for person `P1`, nobody else. -/
def dbFaces : DBData :=
  { assets := [assetWithFaces], exif := [], assetFaces := facesC2,
    albumAssets := [], assetStacks := [] }

/-- Options requesting the people filter for `{P1, P2}`. -/
def optsPeople : SearchOptions := { personIds := some ["P1", "P2"] }

/-- Claim C2 (code bug): the people filter counts matching face rows, not
distinct person ids (`count("personId")` without `distinct`), so an asset
with two face rows for `P1` alone passes the `>= 2` threshold of the
request `{P1, P2}` and is returned, although no face row links it to
`P2`. -/
theorem c2_subset_asset_passes :
    assetPassesPeople facesC2 ["P1", "P2"] "A" = true ∧
    facesC2.any (fun f => f.personId == some "P2") = false ∧
    evalQuery dbFaces (searchAssetBuilder optsPeople).2 = [assetWithFaces] := by
  decide

/-- The stack with primary asset `A`. -/
def stackS : AssetStackRow := { id := "S", primaryAssetId := "A" }

/-- The primary asset of the stack. -/
def primaryA : AssetRow := { asset0 with id := "A", stackId := some "S" }

/-- A live sibling of the stack. -/
def siblingB : AssetRow := { asset0 with id := "B", stackId := some "S" }

/-- A soft-deleted sibling of the stack. -/
def siblingC : AssetRow :=
  { asset0 with id := "C", stackId := some "S", deletedAt := some 5 }

/-- A database with the stack, its primary and its two siblings. -/
def dbStack : DBData :=
  { assets := [primaryA, siblingB, siblingC], exif := [], assetFaces := [],
    albumAssets := [], assetStacks := [stackS] }

/-- Claim C4 (code bug): on the primary of a stack with two siblings
(one soft-deleted) and `withDeleted` unset, the `stackedAssets`
aggregation of `withStack` is `NULL` — its subquery conditions compare
the outer row with itself (`asset_stack.primaryAssetId != assets.id` is
false at a primary) instead of constraining the `stacked` alias — even
though exactly one non-deleted sibling exists in the data. -/
theorem c4_stacked_assets_null :
    withStackOuterWhere (stackJoinRow dbStack primaryA) primaryA = true ∧
    withStackStackedAssets dbStack primaryA none = none ∧
    dbStack.assets.filter
      (fun s => s.stackId == some stackS.id && s.id != stackS.primaryAssetId &&
        s.deletedAt.isNone) = [siblingB] := by
  decide

/-- An asset that is a member of an album. -/
def albumMemberAsset : AssetRow := { asset0 with id := "B1" }

/-- A database in which that asset belongs to album `alb1`. -/
def dbAlbum : DBData :=
  { assets := [albumMemberAsset], exif := [], assetFaces := [],
    albumAssets := [{ albumsId := "alb1", assetsId := "B1" }], assetStacks := [] }

/-- Options requesting only `isNotInAlbum`. -/
def optsNotInAlbum : SearchOptions := { isNotInAlbum := some true }

/-- Claim C10 (code bug): with `isNotInAlbum` set, the generated
subquery compares the membership column with the constant string
`"assets.id"` (`where(..., "=", "assets.id")` passes a value where
`whereRef` was needed), so the `NOT EXISTS` test ignores the outer asset:
an asset that is a member of an album is returned anyway. -/
theorem c10_album_member_returned :
    Cond.notExistsAlbumAssetIdEqLit "assets.id" ∈
      ((searchAssetBuilder optsNotInAlbum).2).wheres ∧
    dbAlbum.albumAssets.any (fun r => r.assetsId == albumMemberAsset.id) = true ∧
    evalQuery dbAlbum (searchAssetBuilder optsNotInAlbum).2 = [albumMemberAsset] := by
  decide

/-- The number of EXIF-dependent filters present (truthy) in an options
bag: city, country, lensModel, make, model, state. -/
def exifFilterCount (opts : SearchOptions) : Nat :=
  (if truthyStr opts.city then 1 else 0) +
  (if truthyStr opts.country then 1 else 0) +
  (if truthyStr opts.lensModel then 1 else 0) +
  (if truthyStr opts.make then 1 else 0) +
  (if truthyStr opts.model then 1 else 0) +
  (if truthyStr opts.state then 1 else 0)

theorem leftExif_mem_joins_iff (opts : SearchOptions) :
    Join.leftExif ∈ ((searchAssetBuilder opts).2).joins ↔
      (truthyStr opts.city = true ∨ truthyStr opts.country = true ∨
       truthyStr opts.lensModel = true ∨ truthyStr opts.make = true ∨
       truthyStr opts.model = true ∨ truthyStr opts.state = true ∨
       truthyB opts.withExifFlag = true) := by
  simp [searchAssetBuilder]

/-- Claim C6: with two or more EXIF-dependent filters set, the compiled
query (after the `DeduplicateJoinsPlugin` pass) contains exactly one join
to the `exif` relation, not one per filter. -/
theorem c6_single_exif_join (opts : SearchOptions) (h : 2 ≤ exifFilterCount opts) :
    (compiledJoins (searchAssetBuilder opts).2).count Join.leftExif = 1 := by
  have hone : truthyStr opts.city = true ∨ truthyStr opts.country = true ∨
      truthyStr opts.lensModel = true ∨ truthyStr opts.make = true ∨
      truthyStr opts.model = true ∨ truthyStr opts.state = true := by
    by_contra hnot
    push_neg at hnot
    obtain ⟨h1, h2, h3, h4, h5, h6⟩ := hnot
    rw [Ne, Bool.not_eq_true] at h1 h2 h3 h4 h5 h6
    unfold exifFilterCount at h
    rw [h1, h2, h3, h4, h5, h6] at h
    simp at h
  have hmem : Join.leftExif ∈ ((searchAssetBuilder opts).2).joins := by
    refine (leftExif_mem_joins_iff opts).mpr ?_
    tauto
  unfold compiledJoins
  rw [List.count_dedup]
  simp [hmem]

/-- Options with both a city and a country filter. -/
def optsCityCountry : SearchOptions := { city := some "Oslo", country := some "NO" }

/-- Witness for claim C6 at options filtering on both city and country. -/
theorem c6_single_exif_join_witness :
    (compiledJoins (searchAssetBuilder optsCityCountry).2).count Join.leftExif = 1 :=
  c6_single_exif_join optsCityCountry (by decide)

/-! ## Migration round trip (C8) -/

/-- Among the `'preview'` rows inserted by `up`, the lookup `down`
performs finds exactly the row of the given asset, provided asset ids
are distinct and the asset had a non-null, non-empty `previewPath`. -/
theorem find_preview_filterMap (assets : List MigAsset) (a : MigAsset) (p : String)
    (hnd : (assets.map (fun x => x.id)).Nodup) (hmem : a ∈ assets)
    (hp : a.previewPath = some p) (hne : p ≠ "") :
    (assets.filterMap (fun x =>
      match x.previewPath with
      | some q => if q != "" then some (⟨x.id, "preview", q⟩ : AssetFileRow) else none
      | none => none)).find?
        (fun f => f.assetId == a.id && f.fileType == "preview") =
      some ⟨a.id, "preview", p⟩ := by
  induction assets with
  | nil => cases hmem
  | cons x xs ih =>
    rw [List.map_cons, List.nodup_cons] at hnd
    rw [List.filterMap_cons]
    rcases List.mem_cons.mp hmem with rfl | hmemxs
    · rw [hp]
      have hp' : (p != "") = true := by simpa using hne
      simp only [hp', if_true]
      exact List.find?_cons_of_pos _ (by simp)
    · have hx : (x.id == a.id) = false := by
        have hxa : x.id ≠ a.id := by
          intro he
          exact hnd.1 (he ▸ List.mem_map_of_mem (fun y => y.id) hmemxs)
        simpa using hxa
      have htail := ih hnd.2 hmemxs
      cases hxp : x.previewPath with
      | none => simpa using htail
      | some q =>
        dsimp only
        by_cases hq : (q != "") = true
        · rw [if_pos hq]
          rw [List.find?_cons_of_neg _ (by simp [hx])]
          exact htail
        · rw [if_neg hq]
          exact htail

/-- Claim C8 (amended): running `up` then `down` restores the
`previewPath` of every asset whose legacy value was non-null **and
non-empty** (asset ids being distinct, as the primary key guarantees):
the row with the asset's id in the resulting table carries exactly the
original value.  (A non-null but empty `previewPath` is excluded by the
`!= ''` guard of `up`'s INSERT and comes back as `NULL`.) -/
theorem c8_up_down_restores (assets : List MigAsset) (a : MigAsset) (p : String)
    (hnd : (assets.map (fun x => x.id)).Nodup) (hmem : a ∈ assets)
    (hp : a.previewPath = some p) (hne : p ≠ "") :
    ∃ x ∈ upThenDown assets, x.id = a.id ∧ x.previewPath = some p := by
  have hfind : (upInsertRows assets).find?
      (fun f => f.assetId == a.id && f.fileType == "preview") =
      some ⟨a.id, "preview", p⟩ := by
    unfold upInsertRows
    rw [List.find?_append, find_preview_filterMap assets a p hnd hmem hp hne]
    rfl
  unfold upThenDown migrationUp migrationDown
  refine ⟨_, List.mem_map_of_mem _ (List.mem_map_of_mem (fun x => x.id) hmem), rfl, ?_⟩
  dsimp only
  rw [hfind]
  rfl

/-- Concrete table for the C8 witness. -/
def c8Assets : List MigAsset := [{ id := "A", previewPath := some "pv.jpg", thumbnailPath := none }]

/-- Witness for the amended claim C8 at a one-asset table with preview
path `"pv.jpg"`. -/
theorem c8_up_down_restores_witness :
    ∃ x ∈ upThenDown c8Assets, x.id = "A" ∧ x.previewPath = some "pv.jpg" :=
  c8_up_down_restores c8Assets
    { id := "A", previewPath := some "pv.jpg", thumbnailPath := none }
    "pv.jpg" (by decide) (by decide) (by decide) (by decide)

/-- An asset whose legacy `previewPath` is non-null but empty. -/
def emptyPreviewAsset : MigAsset := { id := "A", previewPath := some "", thumbnailPath := none }

/-- Claim C8 counterexample: for a non-null but empty legacy
`previewPath`, `up` inserts no `'preview'` row (its INSERT filters
`previewPath != ''`) and `down` re-adds the column as `NULL`, so the
round trip turns the original `''` into `NULL` instead of restoring it. -/
theorem c8_counterexample :
    emptyPreviewAsset.previewPath = some "" ∧
    (upThenDown [emptyPreviewAsset]).map (fun x => x.previewPath) = [none] := by
  decide
